import Mathlib

/-!
Shallow embedding of the resilient AWS client manager in
backend/utils/aws_clients.py: circuit breaker, connection pool,
retry decorator, service health monitor and the orchestrating
AWSClientManager.  Time is modelled as an integer tick count,
client handles as an abstract type parameter, and the outcome of
the boto3 construction calls as an environment oracle.
-/

set_option maxHeartbeats 1000000
set_option maxRecDepth 10000

abbrev ServiceName := String

/-! ## Circuit breaker (class CircuitBreaker) -/

inductive CircuitBreakerState where
  | closed
  | open_
  | half_open
deriving DecidableEq, Repr

structure CircuitBreaker where
  failure_threshold : Nat
  recovery_timeout : Int
  failure_count : Nat
  last_failure_time : Option Int
  state : CircuitBreakerState
deriving DecidableEq, Repr

def circuitOpenMsg : String := "Circuit breaker OPEN"

def CircuitBreaker.should_attempt_reset (cb : CircuitBreaker) (now : Int) : Bool :=
  match cb.last_failure_time with
  | none => false
  | some t => decide (cb.recovery_timeout ≤ now - t)

def CircuitBreaker.on_success (cb : CircuitBreaker) : CircuitBreaker :=
  { cb with failure_count := 0, state := CircuitBreakerState.closed }

def CircuitBreaker.on_failure (cb : CircuitBreaker) (now : Int) : CircuitBreaker :=
  let cb1 := { cb with failure_count := cb.failure_count + 1,
                       last_failure_time := some now }
  if cb1.failure_threshold ≤ cb1.failure_count then
    { cb1 with state := CircuitBreakerState.open_ }
  else
    cb1

/-- Body of the wrapper produced by CircuitBreaker.__call__ applied to a
single invocation of the wrapped function (every breaker in the source is
built with the default expected_exception = Exception, so every raised
error takes the on_failure branch). -/
def CircuitBreaker.run_protected {α : Type} (cb : CircuitBreaker) (now : Int)
    (op : Except String α) : Except String α × CircuitBreaker :=
  match op with
  | Except.ok v => (Except.ok v, cb.on_success)
  | Except.error e => (Except.error e, cb.on_failure now)

def CircuitBreaker.call {α : Type} (cb : CircuitBreaker) (now : Int)
    (op : Except String α) : Except String α × CircuitBreaker :=
  if cb.state = CircuitBreakerState.open_ then
    if cb.should_attempt_reset now then
      CircuitBreaker.run_protected
        { cb with state := CircuitBreakerState.half_open } now op
    else
      (Except.error circuitOpenMsg, cb)
  else
    CircuitBreaker.run_protected cb now op

/-! ## Connection pool (class ConnectionPool) -/

structure ConnectionPool where
  max_connections : Int
  connection_timeout : Int
  read_timeout : Int
  active_connections : Int
deriving DecidableEq, Repr

def poolExhaustedMsg : String := "Connection pool exhausted"

def ConnectionPool.acquire_connection (p : ConnectionPool) :
    Except String ConnectionPool :=
  if p.max_connections ≤ p.active_connections then
    Except.error poolExhaustedMsg
  else
    Except.ok { p with active_connections := p.active_connections + 1 }

def ConnectionPool.release_connection (p : ConnectionPool) : ConnectionPool :=
  if 0 < p.active_connections then
    { p with active_connections := p.active_connections - 1 }
  else
    p

inductive PoolOp where
  | acquire
  | release
deriving DecidableEq, Repr

/-- One pool operation as a caller performs it; a failed acquisition raises
before the counter is touched, leaving the pool unchanged. -/
def runPoolOp (p : ConnectionPool) : PoolOp → ConnectionPool
  | PoolOp.acquire =>
      match p.acquire_connection with
      | Except.ok q => q
      | Except.error _ => p
  | PoolOp.release => p.release_connection

def runPoolOps (ops : List PoolOp) (p : ConnectionPool) : ConnectionPool :=
  ops.foldl runPoolOp p

/-! ## Retry decorator (retry_on_failure)

The wrapped operation is determinised as a function from the call index
(the value of the retries counter at call time) to an outcome: a normal
return, an exception of the retryable classes (ClientError, BotoCoreError),
or any other exception. -/

inductive CallOutcome (α : Type) where
  | ok (v : α)
  | retryableErr (e : String)
  | fatalErr (e : String)
deriving DecidableEq, Repr

/-- Observable trace of one call of the wrapper: the returned value or the
raised error (Except.ok none is the fall-through return None of the Python
wrapper when the loop body never runs), the number of invocations of the
wrapped function, and the pre-jitter base wait time of every sleep in
order. -/
structure RetryTrace (α : Type) where
  result : Except String (Option α)
  calls : Nat
  sleeps : List ℚ
deriving Repr

def retryGo {α : Type} (op : Nat → CallOutcome α) (delay backoff : ℚ)
    (max_retries : Nat) (retries : Nat) : RetryTrace α :=
  if _h : retries < max_retries then
    match op retries with
    | CallOutcome.ok v =>
        { result := Except.ok (some v), calls := 1, sleeps := [] }
    | CallOutcome.fatalErr e =>
        { result := Except.error e, calls := 1, sleeps := [] }
    | CallOutcome.retryableErr e =>
        let r := retries + 1
        if _h2 : max_retries ≤ r then
          { result := Except.error e, calls := 1, sleeps := [] }
        else
          let base_wait_time := delay * backoff ^ (r - 1)
          let rest := retryGo op delay backoff max_retries r
          { result := rest.result, calls := rest.calls + 1,
            sleeps := base_wait_time :: rest.sleeps }
  else
    { result := Except.ok none, calls := 0, sleeps := [] }
termination_by max_retries - retries
decreasing_by omega

def retry_on_failure {α : Type} (max_retries : Nat) (delay backoff : ℚ)
    (op : Nat → CallOutcome α) : RetryTrace α :=
  retryGo op delay backoff max_retries 0

/-- Jitter added to a computed base wait time, as a function of the
fractional part u = time.time() % 1 of the clock:
base_wait_time * 0.1 * (0.5 - u). -/
def jitter_of (base_wait_time : ℚ) (u : ℚ) : ℚ :=
  base_wait_time * (1 / 10) * (1 / 2 - u)

def wait_time_of (base_wait_time : ℚ) (u : ℚ) : ℚ :=
  base_wait_time + jitter_of base_wait_time u

/-! ## Service health monitor (class ServiceHealthMonitor) -/

structure HealthRecord where
  success_count : Nat
  failure_count : Nat
  last_success : Option Int
  last_failure : Option Int
  consecutive_failures : Nat
  last_error : Option String
deriving DecidableEq, Repr

/-- Fresh per-service dict created on first record_* call; the last_error
key is absent until the first failure, read back with .get, hence none. -/
def emptyHealth : HealthRecord :=
  { success_count := 0, failure_count := 0, last_success := none,
    last_failure := none, consecutive_failures := 0, last_error := none }

def record_success (now : Int) (name : ServiceName)
    (h : ServiceName → Option HealthRecord) : ServiceName → Option HealthRecord :=
  fun n =>
    if n = name then
      let r := (h name).getD emptyHealth
      some { r with success_count := r.success_count + 1,
                    last_success := some now,
                    consecutive_failures := 0 }
    else h n

def record_failure (now : Int) (err : String) (name : ServiceName)
    (h : ServiceName → Option HealthRecord) : ServiceName → Option HealthRecord :=
  fun n =>
    if n = name then
      let r := (h name).getD emptyHealth
      some { r with failure_count := r.failure_count + 1,
                    last_failure := some now,
                    consecutive_failures := r.consecutive_failures + 1,
                    last_error := some err }
    else h n

inductive HealthStatus where
  | unknown
  | healthy
  | warning
  | degraded
  | critical
deriving DecidableEq, Repr

def get_health_status (h : ServiceName → Option HealthRecord)
    (name : ServiceName) : HealthStatus :=
  match h name with
  | none => HealthStatus.unknown
  | some r =>
      let total_calls := r.success_count + r.failure_count
      if total_calls = 0 then HealthStatus.unknown
      else if 5 ≤ r.consecutive_failures then HealthStatus.critical
      else if 3 ≤ r.consecutive_failures then HealthStatus.degraded
      else if (r.success_count : ℚ) / (total_calls : ℚ) < 4 / 5 then
        HealthStatus.warning
      else HealthStatus.healthy

/-! ## Client cache (the _clients dict)

A cached value is itself an Option: the accessors store the result of a
construction attempt, which may be None. -/

def cacheLookup {α : Type} (l : List (ServiceName × Option α))
    (n : ServiceName) : Option (Option α) :=
  match l with
  | [] => none
  | (k, v) :: t => if k = n then some v else cacheLookup t n

def cacheInsert {α : Type} (l : List (ServiceName × Option α))
    (n : ServiceName) (v : Option α) : List (ServiceName × Option α) :=
  match l with
  | [] => [(n, v)]
  | (k, w) :: t => if k = n then (n, v) :: t else (k, w) :: cacheInsert t n v

/-- Deletion of a dict key (dict keys are unique, so removing every
binding of the name is the faithful reading of del d on lists). -/
def cacheRemove {α : Type} (l : List (ServiceName × Option α))
    (n : ServiceName) : List (ServiceName × Option α) :=
  match l with
  | [] => []
  | (k, w) :: t => if k = n then cacheRemove t n else (k, w) :: cacheRemove t n

/-! ## Manager state and environment -/

structure ManagerState (α : Type) where
  clients : List (ServiceName × Option α)
  circuit_breakers : ServiceName → Option CircuitBreaker
  service_health : ServiceName → Option HealthRecord
  connection_pool : ConnectionPool
  services_enabled : ServiceName → Bool

/-- External world: the current clock tick and the outcome of the boto3
session/client construction (including, for dynamodb, the list-tables
connection test) for each service. -/
structure Env (α : Type) where
  now : Int
  construct : ServiceName → Except String α

/-- Result of one accessor call: the value handed to the caller, the state
after the call, the number of construction attempts made, and the number of
successful pool acquisitions performed (each paired with a release). -/
structure CreateResult (α : Type) where
  client : Option α
  state : ManagerState α
  attempts : Nat
  acquires : Nat

def recordFailureState {α : Type} (env : Env α) (name : ServiceName)
    (err : String) (st : ManagerState α) : ManagerState α :=
  { st with
    service_health := record_failure env.now err name st.service_health,
    circuit_breakers := fun n =>
      if n = name then
        (st.circuit_breakers n).map (fun cb => cb.on_failure env.now)
      else st.circuit_breakers n }

def recordSuccessState {α : Type} (env : Env α) (name : ServiceName)
    (st : ManagerState α) : ManagerState α :=
  { st with
    service_health := record_success env.now name st.service_health,
    circuit_breakers := fun n =>
      if n = name then (st.circuit_breakers n).map CircuitBreaker.on_success
      else st.circuit_breakers n }

/-- The pool-acquire / construct / record / finally-release core of
_create_client_with_monitoring.  A failed acquisition raises out of the
outer try and is recorded as a failure (there is no inner release, since
the counter was never incremented). -/
def createAttempt {α : Type} (env : Env α) (name : ServiceName)
    (st : ManagerState α) : CreateResult α :=
  match st.connection_pool.acquire_connection with
  | Except.error e =>
      { client := none, state := recordFailureState env name e st,
        attempts := 0, acquires := 0 }
  | Except.ok pool1 =>
      let st1 := { st with connection_pool := pool1 }
      match env.construct name with
      | Except.ok c =>
          let st2 := recordSuccessState env name st1
          { client := some c,
            state := { st2 with
              connection_pool := st2.connection_pool.release_connection },
            attempts := 1, acquires := 1 }
      | Except.error e =>
          let st2 := { st1 with
            connection_pool := st1.connection_pool.release_connection }
          { client := none, state := recordFailureState env name e st2,
            attempts := 1, acquires := 1 }

def create_client_with_monitoring {α : Type} (env : Env α)
    (name : ServiceName) (st : ManagerState α) : CreateResult α :=
  if st.services_enabled name = false then
    { client := none, state := st, attempts := 0, acquires := 0 }
  else
    match st.circuit_breakers name with
    | some cb =>
        if cb.state = CircuitBreakerState.open_ then
          { client := none, state := st, attempts := 0, acquires := 0 }
        else createAttempt env name st
    | none => createAttempt env name st

/-- Common shape of get_bedrock_client, get_textract_client, etc.: on a
cache miss the result of _create_client_with_monitoring is stored in
_clients unconditionally, even when it is None. -/
def get_client_via_monitoring {α : Type} (env : Env α) (name : ServiceName)
    (st : ManagerState α) : CreateResult α :=
  match cacheLookup st.clients name with
  | some v => { client := v, state := st, attempts := 0, acquires := 0 }
  | none =>
      let r := create_client_with_monitoring env name st
      { r with state := { r.state with
          clients := cacheInsert r.state.clients name r.client } }

def nm_bedrock : ServiceName := "bedrock"
def nm_dynamodb : ServiceName := "dynamodb"
def nm_textract : ServiceName := "textract"
def nm_cognito : ServiceName := "cognito"
def nm_ses : ServiceName := "ses"
def nm_sns : ServiceName := "sns"
def nm_sagemaker : ServiceName := "sagemaker"
def nm_comprehend : ServiceName := "comprehend_medical"
def nm_kms : ServiceName := "kms"
def nm_transcribe : ServiceName := "transcribe"
def nm_polly : ServiceName := "polly"
def nm_stepfunctions : ServiceName := "stepfunctions"
def nm_s3 : ServiceName := "s3"

/-- Bedrock accessor body (the retry_on_failure decorator wraps it, but
the body is total and never raises, so the wrapper performs a single
call; see call_with_retry below). -/
def get_bedrock_client {α : Type} (env : Env α) (st : ManagerState α) :
    CreateResult α :=
  get_client_via_monitoring env nm_bedrock st

/-- The decorator applied to an accessor body: in the embedding the body
never raises, so the wrapped operation always returns ok. -/
def call_with_retry {α : Type} (max_retries : Nat) (delay backoff : ℚ)
    (r : CreateResult α) : RetryTrace (CreateResult α) :=
  retry_on_failure max_retries delay backoff (fun _ => CallOutcome.ok r)

/-- get_dynamodb_resource: bespoke body.  Disabled and breaker-open paths
return None without caching; a completed construction attempt caches the
resource on success and None on failure (including pool exhaustion). -/
def get_dynamodb_resource {α : Type} (env : Env α) (st : ManagerState α) :
    CreateResult α :=
  match cacheLookup st.clients nm_dynamodb with
  | some v => { client := v, state := st, attempts := 0, acquires := 0 }
  | none =>
      if st.services_enabled nm_dynamodb = false then
        { client := none, state := st, attempts := 0, acquires := 0 }
      else
        match st.circuit_breakers nm_dynamodb with
        | some cb =>
            if cb.state = CircuitBreakerState.open_ then
              { client := none, state := st, attempts := 0, acquires := 0 }
            else ddbAttempt env st
        | none => ddbAttempt env st
where
  ddbAttempt (env : Env α) (st : ManagerState α) : CreateResult α :=
    match st.connection_pool.acquire_connection with
    | Except.error e =>
        let st1 := recordFailureState env nm_dynamodb e st
        { client := none,
          state := { st1 with
            clients := cacheInsert st1.clients nm_dynamodb none },
          attempts := 0, acquires := 0 }
    | Except.ok pool1 =>
        let st1 := { st with connection_pool := pool1 }
        match env.construct nm_dynamodb with
        | Except.ok c =>
            let st2 := recordSuccessState env nm_dynamodb st1
            let st3 := { st2 with
              clients := cacheInsert st2.clients nm_dynamodb (some c) }
            { client := some c,
              state := { st3 with
                connection_pool := st3.connection_pool.release_connection },
              attempts := 1, acquires := 1 }
        | Except.error e =>
            let st2 := { st1 with
              connection_pool := st1.connection_pool.release_connection }
            let st3 := recordFailureState env nm_dynamodb e st2
            { client := none,
              state := { st3 with
                clients := cacheInsert st3.clients nm_dynamodb none },
              attempts := 1, acquires := 1 }

def services : List ServiceName :=
  [nm_bedrock, nm_dynamodb, nm_textract, nm_cognito, nm_ses, nm_sns,
   nm_sagemaker, nm_comprehend, nm_kms, nm_transcribe, nm_polly,
   nm_stepfunctions, nm_s3]

/-- Dispatch of the client_methods table of get_client_status: every
service except dynamodb goes through _create_client_with_monitoring. -/
def getClientByName {α : Type} (env : Env α) (name : ServiceName)
    (st : ManagerState α) : CreateResult α :=
  if name = nm_dynamodb then get_dynamodb_resource env st
  else get_client_via_monitoring env name st

inductive ClientStatus where
  | healthy
  | unavailable
  | unknown
deriving DecidableEq, Repr

/-- get_client_status: calls the accessor for a known service (the except
branch of the source is unreachable here because no accessor raises) and
classifies the returned value. -/
def get_client_status {α : Type} (env : Env α) (name : ServiceName)
    (st : ManagerState α) : ClientStatus × CreateResult α :=
  if name ∈ services then
    let r := getClientByName env name st
    (if r.client.isSome then ClientStatus.healthy else ClientStatus.unavailable, r)
  else
    (ClientStatus.unknown,
     { client := none, state := st, attempts := 0, acquires := 0 })

/-! ## Aggregate operations of AWSClientManager -/

/-- The circuit-breaker table built in AWSClientManager.__init__. -/
def initial_circuit_breakers : ServiceName → Option CircuitBreaker := fun n =>
  if n = nm_bedrock then some ⟨5, 60, 0, none, CircuitBreakerState.closed⟩
  else if n = nm_dynamodb then some ⟨3, 30, 0, none, CircuitBreakerState.closed⟩
  else if n = nm_textract then some ⟨5, 60, 0, none, CircuitBreakerState.closed⟩
  else if n = nm_cognito then some ⟨3, 30, 0, none, CircuitBreakerState.closed⟩
  else if n = nm_ses then some ⟨5, 60, 0, none, CircuitBreakerState.closed⟩
  else if n = nm_sns then some ⟨5, 60, 0, none, CircuitBreakerState.closed⟩
  else if n = nm_sagemaker then some ⟨3, 120, 0, none, CircuitBreakerState.closed⟩
  else if n = nm_comprehend then some ⟨5, 60, 0, none, CircuitBreakerState.closed⟩
  else if n = nm_kms then some ⟨3, 30, 0, none, CircuitBreakerState.closed⟩
  else if n = nm_transcribe then some ⟨5, 60, 0, none, CircuitBreakerState.closed⟩
  else if n = nm_polly then some ⟨5, 60, 0, none, CircuitBreakerState.closed⟩
  else if n = nm_stepfunctions then some ⟨3, 90, 0, none, CircuitBreakerState.closed⟩
  else if n = nm_s3 then some ⟨3, 30, 0, none, CircuitBreakerState.closed⟩
  else none

/-- reset_circuit_breakers with a service name: reset that breaker to
Closed with zero failures and no last failure time, if it exists. -/
def reset_circuit_breakers_one {α : Type} (name : ServiceName)
    (st : ManagerState α) : ManagerState α :=
  match st.circuit_breakers name with
  | some _ =>
      { st with circuit_breakers := fun n =>
          if n = name then
            (st.circuit_breakers n).map (fun cb =>
              { cb with failure_count := 0,
                        state := CircuitBreakerState.closed,
                        last_failure_time := none })
          else st.circuit_breakers n }
  | none => st

/-- reset_circuit_breakers with no service name: reset every breaker. -/
def reset_circuit_breakers_all {α : Type} (st : ManagerState α) :
    ManagerState α :=
  { st with circuit_breakers := fun n =>
      (st.circuit_breakers n).map (fun cb =>
        { cb with failure_count := 0,
                  state := CircuitBreakerState.closed,
                  last_failure_time := none }) }

/-- force_refresh_client: only when the service has a cache entry is the
entry deleted and (when a breaker exists) the breaker reset. -/
def force_refresh_client {α : Type} (name : ServiceName)
    (st : ManagerState α) : ManagerState α :=
  match cacheLookup st.clients name with
  | some _ =>
      let st1 := { st with clients := cacheRemove st.clients name }
      match st1.circuit_breakers name with
      | some _ => reset_circuit_breakers_one name st1
      | none => st1
  | none => st

/-- refresh_clients: clear the whole cache (settings reload not modelled;
it does not touch breakers, health records or the pool). -/
def refresh_clients {α : Type} (st : ManagerState α) : ManagerState α :=
  { st with clients := [] }

/-- Accumulator of the health_check service loop.  The per-service status
reported is the health-monitor classification, because
service_status.update(health_data) overwrites the status key returned by
get_client_status (get_health_status always returns a status key). -/
structure HealthCheckAcc (α : Type) where
  entries : List (ServiceName × ClientStatus × HealthStatus)
  healthy_services : Nat
  critical_services : Nat
  enabled_services : List ServiceName
  state : ManagerState α
  attempts : Nat
  acquires : Nat

def healthCheckGo {α : Type} (env : Env α) :
    List ServiceName → HealthCheckAcc α → HealthCheckAcc α
  | [], acc => acc
  | s :: rest, acc =>
      let (cs, r) := get_client_status env s acc.state
      let merged := get_health_status r.state.service_health s
      let isEnabled := r.state.services_enabled s
      healthCheckGo env rest
        { entries := acc.entries ++ [(s, cs, merged)],
          healthy_services := acc.healthy_services +
            (if isEnabled ∧ merged = HealthStatus.healthy then 1 else 0),
          critical_services := acc.critical_services +
            (if isEnabled ∧ merged = HealthStatus.critical then 1 else 0),
          enabled_services := acc.enabled_services ++
            (if isEnabled then [s] else []),
          state := r.state,
          attempts := acc.attempts + r.attempts,
          acquires := acc.acquires + r.acquires }

structure HealthCheckResult (α : Type) where
  entries : List (ServiceName × ClientStatus × HealthStatus)
  healthy_services : Nat
  critical_services : Nat
  enabled_services : Nat
  total_services : Nat
  overall_status : HealthStatus
  pool_active : Int
  pool_max : Int
  state : ManagerState α
  attempts : Nat
  acquires : Nat

/-- health_check: runs get_client_status for every listed service, reading
and mutating the shared manager state along the way, then summarises. -/
def health_check {α : Type} (env : Env α) (st : ManagerState α) :
    HealthCheckResult α :=
  let acc := healthCheckGo env services
    { entries := [], healthy_services := 0, critical_services := 0,
      enabled_services := [], state := st, attempts := 0, acquires := 0 }
  let enabled_count := acc.enabled_services.length
  let overall :=
    if enabled_count = 0 then HealthStatus.unknown
    else if 0 < acc.critical_services then HealthStatus.critical
    else if (acc.healthy_services : ℚ) < (enabled_count : ℚ) * (4 / 5) then
      HealthStatus.degraded
    else if acc.healthy_services = enabled_count then HealthStatus.healthy
    else HealthStatus.warning
  { entries := acc.entries,
    healthy_services := acc.healthy_services,
    critical_services := acc.critical_services,
    enabled_services := enabled_count,
    total_services := services.length,
    overall_status := overall,
    pool_active := acc.state.connection_pool.active_connections,
    pool_max := acc.state.connection_pool.max_connections,
    state := acc.state,
    attempts := acc.attempts,
    acquires := acc.acquires }

/-! ## Helper lemmas -/

theorem on_failure_threshold_eq (cb : CircuitBreaker) (t : Int) :
    (cb.on_failure t).failure_threshold = cb.failure_threshold := by
  simp only [CircuitBreaker.on_failure]
  split <;> rfl

theorem on_failure_count_eq (cb : CircuitBreaker) (t : Int) :
    (cb.on_failure t).failure_count = cb.failure_count + 1 := by
  simp only [CircuitBreaker.on_failure]
  split <;> rfl

theorem on_failure_last_eq (cb : CircuitBreaker) (t : Int) :
    (cb.on_failure t).last_failure_time = some t := by
  simp only [CircuitBreaker.on_failure]
  split <;> rfl

theorem on_failure_opens (cb : CircuitBreaker) (t : Int)
    (h : cb.failure_threshold ≤ cb.failure_count + 1) :
    (cb.on_failure t).state = CircuitBreakerState.open_ := by
  simp only [CircuitBreaker.on_failure]
  split
  · rfl
  · omega

def recordFailures (ts : List Int) (cb : CircuitBreaker) : CircuitBreaker :=
  ts.foldl (fun c t => c.on_failure t) cb

theorem recordFailures_open (ts : List Int) :
    ∀ cb : CircuitBreaker, ts ≠ [] →
      cb.failure_threshold ≤ cb.failure_count + ts.length →
      (recordFailures ts cb).state = CircuitBreakerState.open_ := by
  induction ts with
  | nil => intro cb h _; exact absurd rfl h
  | cons t rest ih =>
      intro cb _ hth
      show (recordFailures rest (cb.on_failure t)).state = CircuitBreakerState.open_
      cases rest with
      | nil =>
          show (cb.on_failure t).state = CircuitBreakerState.open_
          apply on_failure_opens
          simpa using hth
      | cons u rest2 =>
          apply ih _ (by simp)
          rw [on_failure_threshold_eq, on_failure_count_eq]
          simp only [List.length_cons] at hth ⊢
          omega

theorem retryGo_calls_le {α : Type} (op : Nat → CallOutcome α) (d b : ℚ)
    (M s : Nat) : (retryGo op d b M s).calls ≤ M - s := by
  rw [retryGo]
  split
  · split
    · simp; omega
    · simp; omega
    · dsimp only
      split
      · simp; omega
      · have ih := retryGo_calls_le op d b M (s + 1)
        simp only
        omega
  · simp
termination_by M - s
decreasing_by omega

theorem retryGo_sleeps_len {α : Type} (op : Nat → CallOutcome α) (d b : ℚ)
    (M s : Nat) : (retryGo op d b M s).sleeps.length ≤ M - s - 1 := by
  rw [retryGo]
  split
  · split
    · simp
    · simp
    · dsimp only
      split
      · simp
      · have ih := retryGo_sleeps_len op d b M (s + 1)
        simp only [List.length_cons]
        omega
  · simp
termination_by M - s
decreasing_by omega

theorem map_pow_shift (d b : ℚ) (s L : Nat) :
    List.map (fun i => d * b ^ (s + 1 + i)) (List.range L) =
      List.map ((fun i => d * b ^ (s + i)) ∘ Nat.succ) (List.range L) := by
  apply List.map_congr_left
  intro i _
  simp only [Function.comp_apply]
  have hexp : s + 1 + i = s + Nat.succ i := by omega
  rw [hexp]

theorem retryGo_sleeps_form {α : Type} (op : Nat → CallOutcome α) (d b : ℚ)
    (M s : Nat) : (retryGo op d b M s).sleeps =
      (List.range (retryGo op d b M s).sleeps.length).map
        (fun i => d * b ^ (s + i)) := by
  rw [retryGo]
  split
  · split
    · simp
    · simp
    · dsimp only
      split
      · simp
      · have ih := retryGo_sleeps_form op d b M (s + 1)
        simp only [List.length_cons, List.range_succ_eq_map, List.map_cons]
        congr 1
        calc (retryGo op d b M (s + 1)).sleeps =
                (List.range (retryGo op d b M (s + 1)).sleeps.length).map
                  (fun i => d * b ^ (s + 1 + i)) := ih
            _ = (List.range (retryGo op d b M (s + 1)).sleeps.length).map
                  ((fun i => d * b ^ (s + i)) ∘ Nat.succ) :=
                map_pow_shift d b s _
            _ = ((List.range (retryGo op d b M (s + 1)).sleeps.length).map
                  Nat.succ).map (fun i => d * b ^ (s + i)) := by
                rw [List.map_map]
  · simp
termination_by M - s
decreasing_by omega

theorem retryGo_all_retryable {α : Type} (op : Nat → CallOutcome α)
    (d b : ℚ) (M : Nat) (e : Nat → String)
    (hop : ∀ k, k < M → op k = CallOutcome.retryableErr (e k))
    (s : Nat) (hs : s < M) :
    (retryGo op d b M s).result = Except.error (e (M - 1)) ∧
    (retryGo op d b M s).calls = M - s ∧
    (retryGo op d b M s).sleeps.length = M - 1 - s := by
  rw [retryGo]
  rw [dif_pos hs, hop s hs]
  dsimp only
  split
  · have hM : M = s + 1 := by omega
    subst hM
    refine ⟨by simp, by simp, by simp⟩
  · have ih := retryGo_all_retryable op d b M e hop (s + 1) (by omega)
    simp only [List.length_cons]
    exact ⟨ih.1, by omega, by omega⟩
termination_by M - s
decreasing_by omega

theorem base_wait_strict_mono (d b : ℚ) (hd : 0 < d) (hb : 1 < b) (k : Nat) :
    d * b ^ k < d * b ^ (k + 1) := by
  have hb0 : (0 : ℚ) < b := lt_trans one_pos hb
  have hk : (0 : ℚ) < b ^ k := pow_pos hb0 k
  calc d * b ^ k = d * b ^ k * 1 := by ring
    _ < d * b ^ k * b := by
        apply mul_lt_mul_of_pos_left hb
        positivity
    _ = d * b ^ (k + 1) := by ring

theorem retryGo_sleeps_chain {α : Type} (op : Nat → CallOutcome α)
    (d b : ℚ) (M s : Nat) (hd : 0 < d) (hb : 1 < b) :
    (retryGo op d b M s).sleeps.Chain' (· < ·) := by
  rw [retryGo_sleeps_form op d b M s, List.chain'_map]
  generalize (retryGo op d b M s).sleeps.length = L
  cases L with
  | zero => simp
  | succ m =>
      rw [List.chain'_range_succ]
      intro k _
      exact base_wait_strict_mono d b hd hb (s + k)

/-! ## Claim theorems: retry policy -/

/-- Claim C4: retry_on_failure with max_retries = N invokes the wrapped
operation at most N times, sleeps at most N-1 times, the i-th (0-based)
pre-jitter wait is delay * backoff ^ i (i.e. baseDelay * factor ^ (attempt-1))
so the waits strictly increase, when every attempt raises a retryable error
the last error is raised after exactly N invocations and N-1 sleeps, and a
non-retryable error propagates immediately after one invocation with no
sleep. -/
theorem retry_on_failure_bounds {α : Type} (op : Nat → CallOutcome α)
    (N : Nat) (d b : ℚ) (hN : 1 ≤ N) (hd : 0 < d) (hb : 1 < b) :
    (retry_on_failure N d b op).calls ≤ N ∧
    (retry_on_failure N d b op).sleeps.length ≤ N - 1 ∧
    (retry_on_failure N d b op).sleeps =
      (List.range (retry_on_failure N d b op).sleeps.length).map
        (fun i => d * b ^ i) ∧
    (retry_on_failure N d b op).sleeps.Chain' (· < ·) ∧
    (∀ e : Nat → String,
      (∀ k, k < N → op k = CallOutcome.retryableErr (e k)) →
      (retry_on_failure N d b op).result = Except.error (e (N - 1)) ∧
      (retry_on_failure N d b op).calls = N ∧
      (retry_on_failure N d b op).sleeps.length = N - 1) ∧
    (∀ e : String, op 0 = CallOutcome.fatalErr e →
      (retry_on_failure N d b op).result = Except.error e ∧
      (retry_on_failure N d b op).calls = 1 ∧
      (retry_on_failure N d b op).sleeps = []) := by
  unfold retry_on_failure
  refine ⟨?_, ?_, ?_, ?_, ?_, ?_⟩
  · have h := retryGo_calls_le op d b N 0
    omega
  · have h := retryGo_sleeps_len op d b N 0
    omega
  · have h := retryGo_sleeps_form op d b N 0
    simpa using h
  · exact retryGo_sleeps_chain op d b N 0 hd hb
  · intro e hop
    have h := retryGo_all_retryable op d b N e hop 0 (by omega)
    refine ⟨h.1, by omega, by omega⟩
  · intro e hfatal
    rw [retryGo]
    rw [dif_pos (by omega : 0 < N), hfatal]
    exact ⟨rfl, rfl, rfl⟩

def retryableErrMsg : String := "ClientError"

def opAllRetry : Nat → CallOutcome Nat :=
  fun _ => CallOutcome.retryableErr retryableErrMsg

theorem retry_on_failure_bounds_witness :
    (1 ≤ 3 ∧ (0 : ℚ) < 1 ∧ (1 : ℚ) < 2) ∧
    ((retry_on_failure 3 1 2 opAllRetry).calls ≤ 3 ∧
     (retry_on_failure 3 1 2 opAllRetry).sleeps.length ≤ 3 - 1 ∧
     (retry_on_failure 3 1 2 opAllRetry).sleeps =
       (List.range (retry_on_failure 3 1 2 opAllRetry).sleeps.length).map
         (fun i => (1 : ℚ) * 2 ^ i) ∧
     (retry_on_failure 3 1 2 opAllRetry).sleeps.Chain' (· < ·) ∧
     (∀ e : Nat → String,
       (∀ k, k < 3 → opAllRetry k = CallOutcome.retryableErr (e k)) →
       (retry_on_failure 3 1 2 opAllRetry).result = Except.error (e (3 - 1)) ∧
       (retry_on_failure 3 1 2 opAllRetry).calls = 3 ∧
       (retry_on_failure 3 1 2 opAllRetry).sleeps.length = 3 - 1) ∧
     (∀ e : String, opAllRetry 0 = CallOutcome.fatalErr e →
       (retry_on_failure 3 1 2 opAllRetry).result = Except.error e ∧
       (retry_on_failure 3 1 2 opAllRetry).calls = 1 ∧
       (retry_on_failure 3 1 2 opAllRetry).sleeps = [])) :=
  ⟨⟨by norm_num, by norm_num, by norm_num⟩,
   retry_on_failure_bounds opAllRetry 3 1 2 (by norm_num) (by norm_num)
     (by norm_num)⟩

/-- Claim C5 (code bug): the jitter actually implemented is
base_wait_time * 0.1 * (0.5 - u) with u = time.time() % 1 in [0, 1), so the
sleep lies in the half-open band (0.95 * base, 1.05 * base]; it can never
reach the documented extremes 0.9 * base or 1.1 * base, contradicting the
inline comment claiming plus-or-minus 10 percent jitter. -/
theorem jitter_only_five_percent (base u : ℚ) (hbase : 0 < base)
    (h0 : 0 ≤ u) (h1 : u < 1) :
    wait_time_of base u ≤ base * (21 / 20) ∧
    base * (19 / 20) < wait_time_of base u ∧
    base * (21 / 20) < base * (11 / 10) ∧
    base * (9 / 10) < base * (19 / 20) := by
  unfold wait_time_of jitter_of
  refine ⟨by nlinarith, by nlinarith, by nlinarith, by nlinarith⟩

theorem jitter_only_five_percent_witness :
    ((0 : ℚ) < 1 ∧ (0 : ℚ) ≤ 0 ∧ (0 : ℚ) < 1) ∧
    (wait_time_of 1 0 ≤ 1 * (21 / 20) ∧
     1 * (19 / 20) < wait_time_of 1 0 ∧
     (1 : ℚ) * (21 / 20) < 1 * (11 / 10) ∧
     (1 : ℚ) * (9 / 10) < 1 * (19 / 20)) :=
  ⟨⟨by norm_num, by norm_num, by norm_num⟩,
   jitter_only_five_percent 1 0 (by norm_num) (by norm_num) (by norm_num)⟩

/-! ## Claim theorems: connection pool and circuit breaker -/

theorem runPoolOp_inv (p : ConnectionPool) (o : PoolOp)
    (h0 : 0 ≤ p.active_connections)
    (h1 : p.active_connections ≤ p.max_connections) :
    0 ≤ (runPoolOp p o).active_connections ∧
    (runPoolOp p o).active_connections ≤ (runPoolOp p o).max_connections ∧
    (runPoolOp p o).max_connections = p.max_connections := by
  cases o with
  | acquire =>
      by_cases hc : p.max_connections ≤ p.active_connections
      · have heq : runPoolOp p PoolOp.acquire = p := by
          simp [runPoolOp, ConnectionPool.acquire_connection, hc]
        rw [heq]
        exact ⟨h0, h1, rfl⟩
      · have heq : runPoolOp p PoolOp.acquire =
            { p with active_connections := p.active_connections + 1 } := by
          simp [runPoolOp, ConnectionPool.acquire_connection, hc]
        rw [heq]
        refine ⟨?_, ?_, rfl⟩
        · show 0 ≤ p.active_connections + 1
          omega
        · show p.active_connections + 1 ≤ p.max_connections
          omega
  | release =>
      by_cases hc : 0 < p.active_connections
      · have heq : runPoolOp p PoolOp.release =
            { p with active_connections := p.active_connections - 1 } := by
          simp [runPoolOp, ConnectionPool.release_connection, hc]
        rw [heq]
        refine ⟨?_, ?_, rfl⟩
        · show 0 ≤ p.active_connections - 1
          omega
        · show p.active_connections - 1 ≤ p.max_connections
          omega
      · have heq : runPoolOp p PoolOp.release = p := by
          simp [runPoolOp, ConnectionPool.release_connection, hc]
        rw [heq]
        exact ⟨h0, h1, rfl⟩

theorem runPoolOps_inv (ops : List PoolOp) :
    ∀ p : ConnectionPool, 0 ≤ p.active_connections →
      p.active_connections ≤ p.max_connections →
      0 ≤ (runPoolOps ops p).active_connections ∧
      (runPoolOps ops p).active_connections ≤
        (runPoolOps ops p).max_connections ∧
      (runPoolOps ops p).max_connections = p.max_connections := by
  induction ops with
  | nil => intro p h0 h1; exact ⟨h0, h1, rfl⟩
  | cons o t ih =>
      intro p h0 h1
      have hstep := runPoolOp_inv p o h0 h1
      have hrec := ih (runPoolOp p o) hstep.1 hstep.2.1
      refine ⟨hrec.1, hrec.2.1, ?_⟩
      show (runPoolOps t (runPoolOp p o)).max_connections = p.max_connections
      rw [hrec.2.2, hstep.2.2]

/-- Claim C6: for any sequence of acquire and release operations starting
from a pool satisfying 0 ≤ active ≤ max, the invariant is preserved; an
acquire at capacity raises the pool-exhausted error and leaves the counter
untouched; a release never drives the counter below zero. -/
theorem connection_pool_invariant (ops : List PoolOp) (p : ConnectionPool)
    (h0 : 0 ≤ p.active_connections)
    (h1 : p.active_connections ≤ p.max_connections) :
    (0 ≤ (runPoolOps ops p).active_connections ∧
     (runPoolOps ops p).active_connections ≤ p.max_connections) ∧
    (p.active_connections = p.max_connections →
      p.acquire_connection = Except.error poolExhaustedMsg ∧
      runPoolOps [PoolOp.acquire] p = p) ∧
    (∀ q : ConnectionPool, 0 ≤ q.active_connections →
      0 ≤ q.release_connection.active_connections) := by
  have hinv := runPoolOps_inv ops p h0 h1
  refine ⟨⟨hinv.1, by rw [← hinv.2.2]; exact hinv.2.1⟩, ?_, ?_⟩
  · intro hfull
    have hacq : p.acquire_connection = Except.error poolExhaustedMsg := by
      unfold ConnectionPool.acquire_connection
      rw [if_pos (by omega)]
    refine ⟨hacq, ?_⟩
    show runPoolOp p PoolOp.acquire = p
    simp only [runPoolOp, hacq]
  · intro q hq
    unfold ConnectionPool.release_connection
    split
    · simp; omega
    · exact hq

def poolFull : ConnectionPool :=
  { max_connections := 2, connection_timeout := 10, read_timeout := 30,
    active_connections := 2 }

theorem connection_pool_invariant_witness :
    ((0 : Int) ≤ poolFull.active_connections ∧
     poolFull.active_connections ≤ poolFull.max_connections) ∧
    ((0 ≤ (runPoolOps [PoolOp.acquire, PoolOp.release, PoolOp.acquire]
        poolFull).active_connections ∧
      (runPoolOps [PoolOp.acquire, PoolOp.release, PoolOp.acquire]
        poolFull).active_connections ≤ poolFull.max_connections) ∧
     (poolFull.active_connections = poolFull.max_connections →
       poolFull.acquire_connection = Except.error poolExhaustedMsg ∧
       runPoolOps [PoolOp.acquire] poolFull = poolFull) ∧
     (∀ q : ConnectionPool, 0 ≤ q.active_connections →
       0 ≤ q.release_connection.active_connections)) :=
  ⟨⟨by decide, by decide⟩,
   connection_pool_invariant [PoolOp.acquire, PoolOp.release, PoolOp.acquire]
     poolFull (by decide) (by decide)⟩

/-- Claim C7: from Closed with zero failures, recording failure_threshold
consecutive failures with no intervening success leaves the breaker Open,
and any recorded success (in particular while HalfOpen) returns the
breaker to Closed with failure_count = 0. -/
theorem circuit_breaker_monotonicity (cb : CircuitBreaker) (ts : List Int)
    (_hst : cb.state = CircuitBreakerState.closed)
    (hcnt : cb.failure_count = 0)
    (hlen : ts.length = cb.failure_threshold)
    (hpos : 1 ≤ cb.failure_threshold) :
    (recordFailures ts cb).state = CircuitBreakerState.open_ ∧
    (∀ c : CircuitBreaker,
      c.on_success.state = CircuitBreakerState.closed ∧
      c.on_success.failure_count = 0) := by
  refine ⟨?_, fun c => ⟨rfl, rfl⟩⟩
  apply recordFailures_open
  · intro hnil
    rw [hnil] at hlen
    simp at hlen
    omega
  · omega

def cbDynamo : CircuitBreaker :=
  { failure_threshold := 3, recovery_timeout := 30, failure_count := 0,
    last_failure_time := none, state := CircuitBreakerState.closed }

theorem circuit_breaker_monotonicity_witness :
    (cbDynamo.state = CircuitBreakerState.closed ∧
     cbDynamo.failure_count = 0 ∧
     ([(1 : Int), 2, 3] : List Int).length = cbDynamo.failure_threshold ∧
     1 ≤ cbDynamo.failure_threshold) ∧
    ((recordFailures [1, 2, 3] cbDynamo).state = CircuitBreakerState.open_ ∧
     (∀ c : CircuitBreaker,
       c.on_success.state = CircuitBreakerState.closed ∧
       c.on_success.failure_count = 0)) :=
  ⟨⟨by decide, by decide, by decide, by decide⟩,
   circuit_breaker_monotonicity cbDynamo [1, 2, 3] (by decide) (by decide)
     (by decide) (by decide)⟩

/-! ## Cache lemmas and concrete states -/

theorem cacheLookup_insert_self {α : Type} (l : List (ServiceName × Option α))
    (n : ServiceName) (v : Option α) :
    cacheLookup (cacheInsert l n v) n = some v := by
  induction l with
  | nil => simp [cacheInsert, cacheLookup]
  | cons p t ih =>
      obtain ⟨k, w⟩ := p
      by_cases hk : k = n
      · subst hk
        simp [cacheInsert, cacheLookup]
      · simp only [cacheInsert, if_neg hk, cacheLookup]
        exact ih

theorem cacheLookup_insert_ne {α : Type} (l : List (ServiceName × Option α))
    (n m : ServiceName) (v : Option α) (h : m ≠ n) :
    cacheLookup (cacheInsert l n v) m = cacheLookup l m := by
  induction l with
  | nil =>
      simp only [cacheInsert, cacheLookup]
      rw [if_neg (fun he => h he.symm)]
  | cons p t ih =>
      obtain ⟨k, w⟩ := p
      by_cases hk : k = n
      · subst hk
        simp only [cacheInsert, if_pos rfl, cacheLookup]
        have hkm : ¬ (k = m) := fun he => h he.symm
        rw [if_neg hkm, if_neg hkm]
      · simp only [cacheInsert, if_neg hk, cacheLookup]
        by_cases hkm : k = m
        · rw [if_pos hkm, if_pos hkm]
        · rw [if_neg hkm, if_neg hkm]
          exact ih

theorem cacheLookup_remove_self {α : Type} (l : List (ServiceName × Option α))
    (n : ServiceName) : cacheLookup (cacheRemove l n) n = none := by
  induction l with
  | nil => simp [cacheRemove, cacheLookup]
  | cons p t ih =>
      obtain ⟨k, w⟩ := p
      by_cases hk : k = n
      · simp only [cacheRemove, if_pos hk]
        exact ih
      · simp only [cacheRemove, if_neg hk, cacheLookup]
        exact ih

theorem createAttempt_clients {α : Type} (env : Env α) (name : ServiceName)
    (st : ManagerState α) :
    (createAttempt env name st).state.clients = st.clients := by
  unfold createAttempt
  cases st.connection_pool.acquire_connection with
  | error e => rfl
  | ok pool1 =>
      cases env.construct name with
      | ok c => rfl
      | error e => rfl

theorem create_clients_eq {α : Type} (env : Env α) (name : ServiceName)
    (st : ManagerState α) :
    (create_client_with_monitoring env name st).state.clients = st.clients := by
  unfold create_client_with_monitoring
  split
  · rfl
  · split
    · split
      · rfl
      · exact createAttempt_clients env name st
    · exact createAttempt_clients env name st

def connErrMsg : String := "EndpointConnectionError"

def envOk : Env Nat := { now := 1000, construct := fun _ => Except.ok 7 }

def envFail : Env Nat :=
  { now := 1000, construct := fun _ => Except.error connErrMsg }

def poolDefault : ConnectionPool :=
  { max_connections := 50, connection_timeout := 10, read_timeout := 30,
    active_connections := 0 }

/-- Freshly initialised manager: empty cache, the breaker table of
__init__, no health data, default pool, every service enabled. -/
def stFresh : ManagerState Nat :=
  { clients := [], circuit_breakers := initial_circuit_breakers,
    service_health := fun _ => none, connection_pool := poolDefault,
    services_enabled := fun _ => true }

def cbInitBedrock : CircuitBreaker :=
  { failure_threshold := 5, recovery_timeout := 60, failure_count := 0,
    last_failure_time := none, state := CircuitBreakerState.closed }

/-- A bedrock breaker that tripped Open at time 0; at envOk.now = 1000 the
recovery timeout of 60 has long elapsed. -/
def cbOpenBedrock : CircuitBreaker :=
  { failure_threshold := 5, recovery_timeout := 60, failure_count := 5,
    last_failure_time := some 0, state := CircuitBreakerState.open_ }

def stOpenElig : ManagerState Nat :=
  { stFresh with circuit_breakers := fun n =>
      if n = nm_bedrock then some cbOpenBedrock
      else initial_circuit_breakers n }

def stDisabled : ManagerState Nat :=
  { stFresh with services_enabled := fun _ => false }

def stCachedNone : ManagerState Nat :=
  { stFresh with clients := [(nm_bedrock, none)] }

def stCachedOpen : ManagerState Nat :=
  { stFresh with
    clients := [(nm_bedrock, some 7)],
    circuit_breakers := fun n =>
      if n = nm_bedrock then some cbOpenBedrock
      else initial_circuit_breakers n }

/-- Fresh state whose breakers all carry two prior failures (Closed). -/
def stWorn : ManagerState Nat :=
  { stFresh with circuit_breakers := fun n =>
      (initial_circuit_breakers n).map (fun cb =>
        { cb with failure_count := 2, last_failure_time := some 0 }) }

/-! ## Claim theorems: client manager -/

/-- Claim C8: a getClient call on a disabled service returns nil and
leaves the circuit breakers, health records and pool counter untouched
(both for the generic _create_client_with_monitoring accessors and for
the bespoke dynamodb accessor); in real executions a disabled service can
only ever have None cached, which the cache hypothesis expresses. -/
theorem disabled_service_frame {α : Type} (env : Env α) (st : ManagerState α)
    (name : ServiceName) (hdis : st.services_enabled name = false)
    (hc : ∀ v, cacheLookup st.clients name = some v → v = none) :
    ((get_client_via_monitoring env name st).client = none ∧
     (get_client_via_monitoring env name st).attempts = 0 ∧
     (get_client_via_monitoring env name st).acquires = 0 ∧
     (get_client_via_monitoring env name st).state.circuit_breakers
       = st.circuit_breakers ∧
     (get_client_via_monitoring env name st).state.service_health
       = st.service_health ∧
     (get_client_via_monitoring env name st).state.connection_pool
       = st.connection_pool) ∧
    (st.services_enabled nm_dynamodb = false →
     (∀ v, cacheLookup st.clients nm_dynamodb = some v → v = none) →
     (get_dynamodb_resource env st).client = none ∧
     (get_dynamodb_resource env st).state.circuit_breakers
       = st.circuit_breakers ∧
     (get_dynamodb_resource env st).state.service_health
       = st.service_health ∧
     (get_dynamodb_resource env st).state.connection_pool
       = st.connection_pool) := by
  constructor
  · cases hl : cacheLookup st.clients name with
    | some v =>
        have hv := hc v hl
        subst hv
        simp only [get_client_via_monitoring, hl]
        simp
    | none =>
        simp only [get_client_via_monitoring, hl,
          create_client_with_monitoring, hdis]
        simp
  · intro hdis2 hc2
    cases hl : cacheLookup st.clients nm_dynamodb with
    | some v =>
        have hv := hc2 v hl
        subst hv
        simp only [get_dynamodb_resource, hl]
        simp
    | none =>
        simp only [get_dynamodb_resource, hl, hdis2]
        simp

theorem disabled_service_frame_witness :
    stDisabled.services_enabled nm_bedrock = false ∧
    ((get_client_via_monitoring envOk nm_bedrock stDisabled).client = none ∧
     (get_client_via_monitoring envOk nm_bedrock
        stDisabled).state.connection_pool = stDisabled.connection_pool ∧
     (get_client_via_monitoring envOk nm_bedrock
        stDisabled).state.circuit_breakers = stDisabled.circuit_breakers) := by
  have h := disabled_service_frame envOk stDisabled nm_bedrock (by decide)
    (fun v hv => by simp [stDisabled, stFresh, cacheLookup] at hv)
  exact ⟨by decide, h.1.1, h.1.2.2.2.2.2, h.1.2.2.2.1⟩

/-- Claim C3 (amended): the accessor caches the result of any completed
construction path — success or failure — not only successes: a cache hit
returns the stored value (even a cached None) with zero construction
attempts and an unchanged state, a cache miss stores exactly what the
construction returned (None included), and an accessor call never removes
an existing cache entry (eviction happens only through the refresh
operations). -/
theorem cache_stores_any_result {α : Type} (env : Env α)
    (st : ManagerState α) (name : ServiceName) :
    (∀ v, cacheLookup st.clients name = some v →
      get_client_via_monitoring env name st =
        { client := v, state := st, attempts := 0, acquires := 0 }) ∧
    (cacheLookup st.clients name = none →
      cacheLookup (get_client_via_monitoring env name st).state.clients name
        = some (get_client_via_monitoring env name st).client) ∧
    (∀ m w, cacheLookup st.clients m = some w →
      cacheLookup (get_client_via_monitoring env name st).state.clients m
        = some w) := by
  refine ⟨?_, ?_, ?_⟩
  · intro v hl
    simp only [get_client_via_monitoring, hl]
  · intro hl
    simp only [get_client_via_monitoring, hl]
    exact cacheLookup_insert_self _ name _
  · intro m w hw
    cases hl : cacheLookup st.clients name with
    | some v =>
        simp only [get_client_via_monitoring, hl]
        exact hw
    | none =>
        have hne : m ≠ name := by
          intro he
          subst he
          rw [hw] at hl
          exact Option.noConfusion hl
        simp only [get_client_via_monitoring, hl]
        rw [create_clients_eq, cacheLookup_insert_ne _ _ _ _ hne]
        exact hw

/-- Claim C3 counterexample: with an always-failing constructor the first
get_bedrock_client call makes one construction attempt and caches None;
the second call finds the cached None, makes zero construction attempts
and returns the cached failure instead of re-attempting. -/
theorem cached_failure_not_reattempted :
    (get_bedrock_client envFail stFresh).client = none ∧
    (get_bedrock_client envFail stFresh).attempts = 1 ∧
    cacheLookup (get_bedrock_client envFail stFresh).state.clients nm_bedrock
      = some none ∧
    (get_bedrock_client envFail
      (get_bedrock_client envFail stFresh).state).attempts = 0 ∧
    (get_bedrock_client envFail
      (get_bedrock_client envFail stFresh).state).client = none := by
  decide

theorem cache_stores_any_result_witness :
    cacheLookup stCachedNone.clients nm_bedrock = some none ∧
    get_client_via_monitoring envOk nm_bedrock stCachedNone =
      { client := none, state := stCachedNone, attempts := 0,
        acquires := 0 } :=
  ⟨by decide,
   (cache_stores_any_result envOk stCachedNone nm_bedrock).1 none (by decide)⟩

/-- Claim C1 (amended): while a service's breaker is Open and the service
is uncached, getClient returns nil without attempting construction and
leaves the breaker unchanged (still Open) regardless of how much time has
elapsed; the Open to HalfOpen lazy transition exists only inside the
CircuitBreaker call wrapper (which transitions exactly when
now - lastFailureTime ≥ recoveryTimeout, and otherwise rejects without
invoking the wrapped operation), and the manager's accessors never use
that wrapper. -/
theorem open_breaker_never_half_open {α : Type} (env : Env α)
    (st : ManagerState α) (name : ServiceName) (cb : CircuitBreaker)
    (hmiss : cacheLookup st.clients name = none)
    (hcb : st.circuit_breakers name = some cb)
    (hopen : cb.state = CircuitBreakerState.open_) :
    ((get_client_via_monitoring env name st).client = none ∧
     (get_client_via_monitoring env name st).attempts = 0 ∧
     (get_client_via_monitoring env name st).state.circuit_breakers name
       = some cb) ∧
    (∀ op : Except String α,
      (cb.should_attempt_reset env.now = false →
        cb.call env.now op = (Except.error circuitOpenMsg, cb)) ∧
      (cb.should_attempt_reset env.now = true →
        (∀ v, op = Except.ok v →
          cb.call env.now op =
            (Except.ok v,
             { cb with
               failure_count := 0,
               state := CircuitBreakerState.closed })) ∧
        (∀ e, op = Except.error e →
          (cb.call env.now op).2.last_failure_time = some env.now ∧
          (cb.call env.now op).1 = Except.error e))) := by
  constructor
  · simp only [get_client_via_monitoring, hmiss,
      create_client_with_monitoring, hcb, hopen]
    by_cases hen : st.services_enabled name = false
    · simp [hen, hcb]
    · simp [hen, hcb]
  · intro op
    constructor
    · intro hreset
      simp only [CircuitBreaker.call, hopen, hreset]
      simp
    · intro hreset
      constructor
      · intro v hv
        subst hv
        simp only [CircuitBreaker.call, hopen, hreset,
          CircuitBreaker.run_protected, CircuitBreaker.on_success]
        simp
      · intro e he
        subst he
        simp only [CircuitBreaker.call, hopen, hreset,
          CircuitBreaker.run_protected]
        exact ⟨on_failure_last_eq _ _, rfl⟩

/-- Claim C1 counterexample: bedrock's breaker is Open, its recovery
timeout (60) has long elapsed by envOk.now = 1000
(should_attempt_reset = true), the service is enabled and uncached and
construction would succeed, yet getClient makes zero construction
attempts, returns nil, and leaves the breaker exactly as it was — no
HalfOpen transition happens. -/
theorem open_breaker_eligible_counterexample :
    cbOpenBedrock.should_attempt_reset envOk.now = true ∧
    stOpenElig.services_enabled nm_bedrock = true ∧
    (get_client_via_monitoring envOk nm_bedrock stOpenElig).client = none ∧
    (get_client_via_monitoring envOk nm_bedrock stOpenElig).attempts = 0 ∧
    (get_client_via_monitoring envOk nm_bedrock
      stOpenElig).state.circuit_breakers nm_bedrock = some cbOpenBedrock := by
  decide

theorem open_breaker_never_half_open_witness :
    (cacheLookup stOpenElig.clients nm_bedrock = none ∧
     stOpenElig.circuit_breakers nm_bedrock = some cbOpenBedrock ∧
     cbOpenBedrock.state = CircuitBreakerState.open_) ∧
    ((get_client_via_monitoring envOk nm_bedrock stOpenElig).attempts = 0 ∧
     (cbOpenBedrock.call envOk.now (Except.ok (7 : Nat))).2.state =
       CircuitBreakerState.closed) := by
  have h := open_breaker_never_half_open envOk stOpenElig nm_bedrock
    cbOpenBedrock (by decide) (by decide) (by decide)
  refine ⟨⟨by decide, by decide, by decide⟩, h.1.2.1, ?_⟩
  have h2 := ((h.2 (Except.ok 7)).2 (by decide)).1 7 rfl
  rw [h2]

/-- Claim C2 (amended): the retry decorator wraps each accessor, but the
accessor body is total — construction errors are caught inside
_create_client_with_monitoring and converted to a None return — so the
decorator performs exactly one call with no sleeps and never re-attempts;
consequently a getClient call whose construction fails makes exactly one
construction attempt and immediately records exactly one failure in both
the service's health record and its circuit breaker, without exhausting
any retry budget first. -/
theorem failing_construction_single_attempt {α : Type} (env : Env α)
    (st : ManagerState α) (name : ServiceName) (cb : CircuitBreaker)
    (err : String)
    (hmiss : cacheLookup st.clients name = none)
    (hen : st.services_enabled name = true)
    (hcb : st.circuit_breakers name = some cb)
    (hnopen : ¬ cb.state = CircuitBreakerState.open_)
    (hroom : ¬ st.connection_pool.max_connections ≤
      st.connection_pool.active_connections)
    (hfail : env.construct name = Except.error err) :
    (∀ (M : Nat) (d b : ℚ) (r : CreateResult α), 1 ≤ M →
      call_with_retry M d b r =
        { result := Except.ok (some r), calls := 1, sleeps := [] }) ∧
    (get_client_via_monitoring env name st).client = none ∧
    (get_client_via_monitoring env name st).attempts = 1 ∧
    ((get_client_via_monitoring env name st).state.service_health name).map
      HealthRecord.failure_count =
      some (((st.service_health name).getD emptyHealth).failure_count + 1) ∧
    ((get_client_via_monitoring env name st).state.circuit_breakers name).map
      CircuitBreaker.failure_count = some (cb.failure_count + 1) := by
  constructor
  · intro M d b r hM
    unfold call_with_retry retry_on_failure
    rw [retryGo]
    rw [dif_pos (by omega : 0 < M)]
  · simp only [get_client_via_monitoring, hmiss,
      create_client_with_monitoring, hen, createAttempt,
      ConnectionPool.acquire_connection, hcb, hfail]
    rw [if_neg (by simp), if_neg hnopen, if_neg hroom]
    simp only [recordFailureState, record_failure, if_pos rfl]
    refine ⟨trivial, trivial, by simp, ?_⟩
    simp only [hcb, Option.map_map, Option.map_some]
    simp [Function.comp, on_failure_count_eq]

/-- Claim C2 counterexample: on a fresh, fully enabled manager with an
always-failing constructor, one get_bedrock_client call makes exactly one
construction attempt (not the decorator's three) and already records one
breaker failure and one health-record failure. -/
theorem retry_never_reattempted_counterexample :
    (get_bedrock_client envFail stFresh).attempts = 1 ∧
    ((get_bedrock_client envFail stFresh).state.circuit_breakers
      nm_bedrock).map CircuitBreaker.failure_count = some 1 ∧
    ((get_bedrock_client envFail stFresh).state.service_health
      nm_bedrock).map HealthRecord.failure_count = some 1 ∧
    ¬ (get_bedrock_client envFail stFresh).attempts = 3 := by
  decide

theorem failing_construction_single_attempt_witness :
    (cacheLookup stFresh.clients nm_bedrock = none ∧
     stFresh.services_enabled nm_bedrock = true ∧
     stFresh.circuit_breakers nm_bedrock = some cbInitBedrock ∧
     envFail.construct nm_bedrock = Except.error connErrMsg) ∧
    ((get_client_via_monitoring envFail nm_bedrock stFresh).attempts = 1 ∧
     call_with_retry 3 1 2
       (get_client_via_monitoring envFail nm_bedrock stFresh) =
       { result := Except.ok
           (some (get_client_via_monitoring envFail nm_bedrock stFresh)),
         calls := 1, sleeps := [] }) := by
  have h := failing_construction_single_attempt envFail stFresh nm_bedrock
    cbInitBedrock connErrMsg (by decide) (by decide) (by decide) (by decide)
    (by decide) rfl
  exact ⟨⟨by decide, by decide, by decide, rfl⟩,
    h.2.2.1, h.1 3 1 2 _ (by norm_num)⟩

/-- Claim C9 (amended): force_refresh_client evicts the cached handle and
resets the service's breaker to Closed with zero failures and a cleared
lastFailureTime — including when the breaker is Open — but only when an
entry (possibly None) is currently cached for the service; when nothing
is cached it is a complete no-op and in particular does not reset the
breaker. -/
theorem force_refresh_resets_only_cached {α : Type} (st : ManagerState α)
    (name : ServiceName) (v : Option α) (cb : CircuitBreaker)
    (hcached : cacheLookup st.clients name = some v)
    (hcb : st.circuit_breakers name = some cb) :
    (cacheLookup (force_refresh_client name st).clients name = none ∧
     (force_refresh_client name st).circuit_breakers name =
       some { cb with
              failure_count := 0,
              state := CircuitBreakerState.closed,
              last_failure_time := none } ∧
     (∀ m, m ≠ name → (force_refresh_client name st).circuit_breakers m =
       st.circuit_breakers m)) ∧
    (∀ st2 : ManagerState α, cacheLookup st2.clients name = none →
      force_refresh_client name st2 = st2) := by
  constructor
  · simp only [force_refresh_client, hcached, reset_circuit_breakers_one,
      hcb]
    refine ⟨cacheLookup_remove_self _ _, by simp, ?_⟩
    intro m hm
    simp [if_neg hm]
  · intro st2 h2
    simp only [force_refresh_client, h2]

/-- Claim C9 counterexample: bedrock's breaker is Open but no handle is
cached for it; force_refresh_client is a no-op and leaves the breaker
Open with its failure count, instead of resetting it as the claim
states. -/
theorem force_refresh_uncached_counterexample :
    cacheLookup stOpenElig.clients nm_bedrock = none ∧
    (force_refresh_client nm_bedrock stOpenElig).circuit_breakers nm_bedrock
      = some cbOpenBedrock ∧
    cbOpenBedrock.state = CircuitBreakerState.open_ ∧
    cbOpenBedrock.failure_count = 5 := by
  decide

theorem force_refresh_resets_only_cached_witness :
    (cacheLookup stCachedOpen.clients nm_bedrock = some (some 7) ∧
     stCachedOpen.circuit_breakers nm_bedrock = some cbOpenBedrock) ∧
    (cacheLookup (force_refresh_client nm_bedrock stCachedOpen).clients
       nm_bedrock = none ∧
     (force_refresh_client nm_bedrock stCachedOpen).circuit_breakers
       nm_bedrock =
       some { cbOpenBedrock with
              failure_count := 0,
              state := CircuitBreakerState.closed,
              last_failure_time := none }) := by
  have h := force_refresh_resets_only_cached stCachedOpen nm_bedrock (some 7)
    cbOpenBedrock (by decide) (by decide)
  exact ⟨⟨by decide, by decide⟩, h.1.1, h.1.2.1⟩

/-- Claim C10: health_check is not a pure read: for every listed service
it runs get_client_status, which invokes that service's accessor.  At a
state where every service is enabled, uncached and constructible (with
every breaker Closed carrying two old failures), one health_check call
constructs and caches a handle for all thirteen services, gives every
service a fresh success count, rewrites every breaker through on_success
(failure counts drop from 2 to 0), and performs thirteen pool
acquisitions, each paired with a release (so the counter is mutated
transiently but its final value is unchanged). -/
theorem health_check_mutates_state :
    (∀ s ∈ services, cacheLookup stWorn.clients s = none) ∧
    (∀ s ∈ services,
      cacheLookup (health_check envOk stWorn).state.clients s =
        some (some 7)) ∧
    (∀ s ∈ services,
      ((health_check envOk stWorn).state.service_health s).map
        HealthRecord.success_count = some 1) ∧
    (∀ s ∈ services,
      (stWorn.circuit_breakers s).map CircuitBreaker.failure_count =
        some 2) ∧
    (∀ s ∈ services,
      ((health_check envOk stWorn).state.circuit_breakers s).map
        CircuitBreaker.failure_count = some 0) ∧
    (health_check envOk stWorn).attempts = 13 ∧
    (health_check envOk stWorn).acquires = 13 ∧
    (health_check envOk stWorn).state.connection_pool.active_connections =
      stWorn.connection_pool.active_connections := by
  decide

theorem health_check_mutates_state_witness :
    nm_bedrock ∈ services ∧
    cacheLookup (health_check envOk stWorn).state.clients nm_bedrock =
      some (some 7) :=
  ⟨by decide, health_check_mutates_state.2.1 nm_bedrock (by decide)⟩
